import Mathlib

/-!
Verification of the od-draw diagram library core.

Shallow embedding of the Python sources under `src/od_draw/`:
floats are modelled as exact rationals (`ℚ`), except for the SVG
bounding-box computation whose trigonometry lives in `ℝ`; Python
exceptions are modelled with `Except String`; `None` defaults with
`Option`.
-/

set_option maxHeartbeats 1000000

namespace OdDraw

/-- The three renderer backends of `od_draw/diagram/backends/`. -/
inductive BackendTag where
  | svg
  | png
  | drawio
  deriving DecidableEq

/-- Python's `str.endswith`, modelled over the character list. -/
def pyEndsWith (s suffix : String) : Bool :=
  suffix.data.isSuffixOf s.data

/-- Backend selection of `Diagram.render` (`od_draw/diagram/base.py`,
lines 42-49): a chain of `if backend == NAME or output_path.endswith(EXT)`
tests in the order svg, png, drawio; when no branch fires, the previously
bound backend is kept if present, otherwise the default `SVGBackend` is
bound.  The function returns the backend that `self._backend.render` is
invoked on. -/
def selectBackend (backend : Option String) (outputPath : String)
    (bound : Option BackendTag) : BackendTag :=
  if backend = some "svg" ∨ pyEndsWith outputPath ".svg" = true then .svg
  else if backend = some "png" ∨ pyEndsWith outputPath ".png" = true then .png
  else if backend = some "drawio" ∨ pyEndsWith outputPath ".drawio" = true then .drawio
  else bound.getD .svg

/-- The closed shape variant set of `od_draw/shapes/base.py` (the module the
package exports from).  Only geometric fields are modelled; styling fields
(border thickness/style/color, background color) are carried by no claim
about geometry or node counts.  `Square` is a constructor wrapper, see
`square` below.  A `Circle` stores `width = height = 2 * radius` and
`rotation = 0` (its constructor fixes both). -/
inductive OdShape where
  | rectangle (x y width height rotation : ℚ)
  | triangle (x y width height rotation : ℚ)
  | polygon (points : List (ℚ × ℚ)) (rotation : ℚ)
  | circle (x y radius : ℚ)
  | line (x0 y0 x1 y1 : ℚ)
  deriving DecidableEq

/-- `Square.__init__` (`od_draw/shapes/base.py`, lines 105-122): forwards
`(x, y, size, size, ..., rotation)` to the `Shape` base constructor; every
backend treats it through the `(Rectangle, Square)` isinstance branch. -/
def square (x y size rotation : ℚ) : OdShape :=
  OdShape.rectangle x y size size rotation

/-- Mutable state of a `Diagram` (`od_draw/diagram/base.py`, lines 14-27). -/
structure DiagramState where
  width : ℚ
  height : ℚ
  units : String
  widthProvided : Bool
  heightProvided : Bool
  explicitDims : Bool
  shapes : List OdShape
  backend : Option BackendTag
  deriving DecidableEq

/-- State effect of `Diagram.render` (`od_draw/diagram/base.py`, lines
41-60) on the diagram object.  The method body assigns only
`self._backend` (lines 43, 45, 47, 49); the subsequent
`self._backend.render(self.shapes, output_path, **render_kwargs)` call
only reads the shape list (all three backend `render` implementations
take the shapes, build output locally and write a file; none assigns to
the diagram or mutates the list). -/
def diagramRenderState (d : DiagramState) (backendArg : Option String)
    (outputPath : String) : DiagramState :=
  { d with backend := some (selectBackend backendArg outputPath d.backend) }

/-- Render-options bag (the `**kwargs` recognized by the backends): keys
read by `SVGBackend.render` / `PNGBackend.render` with their Python
defaults.  `marginTop`/... model `kwargs.get("margin_top", margin)`:
`none` means the key was absent. -/
structure RenderOpts where
  width : ℚ := 800
  height : ℚ := 600
  explicitDimensions : Bool := false
  showRulers : Bool := false
  showGrid : Bool := false
  margin : ℚ := 0
  marginTop : Option ℚ := none
  marginBottom : Option ℚ := none
  marginLeft : Option ℚ := none
  marginRight : Option ℚ := none
  deriving DecidableEq

/-- Effective top margin: `kwargs.get("margin_top", margin)`. -/
def RenderOpts.mTop (o : RenderOpts) : ℚ := o.marginTop.getD o.margin

/-- Effective bottom margin: `kwargs.get("margin_bottom", margin)`. -/
def RenderOpts.mBottom (o : RenderOpts) : ℚ := o.marginBottom.getD o.margin

/-- Effective left margin: `kwargs.get("margin_left", margin)`. -/
def RenderOpts.mLeft (o : RenderOpts) : ℚ := o.marginLeft.getD o.margin

/-- Effective right margin: `kwargs.get("margin_right", margin)`. -/
def RenderOpts.mRight (o : RenderOpts) : ℚ := o.marginRight.getD o.margin

/-- Canvas size computed by `PNGBackend.render`
(`od_draw/diagram/backends/png.py`, lines 15-28): always
`(width + margin_left + margin_right, height + margin_top + margin_bottom)`
from the `width`/`height` options; the `explicit_dimensions` and
`show_rulers` options are never read for sizing by this backend. -/
def pngCanvasSize (o : RenderOpts) : ℚ × ℚ :=
  (o.width + o.mLeft + o.mRight, o.height + o.mTop + o.mBottom)

/-- Page size written by the interchange backend: `DrawIOBackend.render`
constructs `Page(file=file)` with no size arguments, so
`od_draw/drawio/page.py` lines 72-73 fix `width = 850`, `height = 1100`
independently of shapes and options. -/
def drawioPageSize : ℚ × ℚ := (850, 1100)

/-- Degrees to radians: `math.radians(rotation)` as used by the backends. -/
noncomputable def radians (deg : ℚ) : ℝ := (deg : ℝ) * Real.pi / 180

/-- Rotation of a point about `(cx, cy)` by `angleRad`, exactly the formula
of `SVGBackend._calculate_bounding_box` (`svg.py`, lines 37-38 and 65-66):
`rx = cx + (x-cx)*cos(a) - (y-cy)*sin(a)`,
`ry = cy + (x-cx)*sin(a) + (y-cy)*cos(a)`. -/
noncomputable def rotatePoint (cx cy angleRad : ℝ) (p : ℝ × ℝ) : ℝ × ℝ :=
  (cx + (p.1 - cx) * Real.cos angleRad - (p.2 - cy) * Real.sin angleRad,
   cy + (p.1 - cx) * Real.sin angleRad + (p.2 - cy) * Real.cos angleRad)

/-- Points fed into the min/max accumulation for a rectangle-like shape
(the final `else` of `_calculate_bounding_box`, `svg.py` lines 49-75):
with nonzero rotation the four corners rotated about the shape's
bounding-box center; without rotation the two extreme corners
`(x, y)` and `(x+width, y+height)`. -/
noncomputable def rectLikePoints (x y w h rot : ℚ) : List (ℝ × ℝ) :=
  if rot ≠ 0 then
    let cx : ℝ := (x : ℝ) + (w : ℝ) / 2
    let cy : ℝ := (y : ℝ) + (h : ℝ) / 2
    [((x : ℝ), (y : ℝ)), ((x : ℝ) + (w : ℝ), (y : ℝ)),
     ((x : ℝ) + (w : ℝ), (y : ℝ) + (h : ℝ)),
     ((x : ℝ), (y : ℝ) + (h : ℝ))].map (rotatePoint cx cy (radians rot))
  else [((x : ℝ), (y : ℝ)), ((x : ℝ) + (w : ℝ), (y : ℝ) + (h : ℝ))]

/-- Points each shape contributes to the bounding box accumulation in
`SVGBackend._calculate_bounding_box` (`svg.py`, lines 22-75): a line its
two endpoints; a polygon its vertices (rotated about the vertex centroid
when rotation is nonzero); every other shape the rectangle-like corner
treatment.  A circle reaches the rectangle-like branch with
`width = height = 2*radius` and `rotation = 0`. -/
noncomputable def bboxPointsOfShape : OdShape → List (ℝ × ℝ)
  | .line x0 y0 x1 y1 => [((x0 : ℝ), (y0 : ℝ)), ((x1 : ℝ), (y1 : ℝ))]
  | .polygon pts rot =>
      if rot ≠ 0 then
        let cx : ℝ := (pts.map (fun p => ((p.1 : ℝ)))).sum / pts.length
        let cy : ℝ := (pts.map (fun p => ((p.2 : ℝ)))).sum / pts.length
        pts.map (fun p => rotatePoint cx cy (radians rot) ((p.1 : ℝ), (p.2 : ℝ)))
      else pts.map (fun p => ((p.1 : ℝ), (p.2 : ℝ)))
  | .rectangle x y w h rot => rectLikePoints x y w h rot
  | .triangle x y w h rot => rectLikePoints x y w h rot
  | .circle x y r => rectLikePoints x y (2 * r) (2 * r) 0

/-- One step of Python's `min_x = min(min_x, v)` with `min_x` seeded at
`float("inf")`: `none` models the untouched infinity seed. -/
noncomputable def minFold (acc : Option ℝ) (v : ℝ) : Option ℝ :=
  some (acc.elim v (fun a => min a v))

/-- One step of Python's `max_x = max(max_x, v)` seeded at `-inf`. -/
noncomputable def maxFold (acc : Option ℝ) (v : ℝ) : Option ℝ :=
  some (acc.elim v (fun a => max a v))

/-- `SVGBackend._calculate_bounding_box` (`svg.py`, lines 12-77): returns
`(min_x, min_y, max_x, max_y)`; an empty shape list returns the fixed
`(0, 0, 800, 600)`.  The `getD 0` is reachable only when every shape
contributed no point (only possible for vertex-less polygons, which the
`Polygon` constructor rejects); there Python would return the infinities. -/
noncomputable def calculateBoundingBox (shapes : List OdShape) : ℝ × ℝ × ℝ × ℝ :=
  if shapes.isEmpty then (0, 0, 800, 600)
  else
    let pts := (shapes.map bboxPointsOfShape).flatten
    (((pts.map Prod.fst).foldl minFold none).getD 0,
     ((pts.map Prod.snd).foldl minFold none).getD 0,
     ((pts.map Prod.fst).foldl maxFold none).getD 0,
     ((pts.map Prod.snd).foldl maxFold none).getD 0)

/-- Content-box step of `SVGBackend.render` (`svg.py`, lines 95-109),
returning `(min_x, min_y, content_width, content_height)`: under explicit
dimensions the declared width/height verbatim (margins are NOT added, the
code comments them as "already includes any desired margins"); otherwise
the shape bounding box inflated by the margins on each axis. -/
noncomputable def svgContentBox (shapes : List OdShape) (o : RenderOpts) : ℝ × ℝ × ℝ × ℝ :=
  if o.explicitDimensions then (0, 0, (o.width : ℝ), (o.height : ℝ))
  else
    let bb := calculateBoundingBox shapes
    (bb.1, bb.2.1,
     (bb.2.2.1 - bb.1) + (o.mLeft : ℝ) + (o.mRight : ℝ),
     (bb.2.2.2 - bb.2.1) + (o.mTop : ℝ) + (o.mBottom : ℝ))

/-- Canvas and shape-translation quantities of `SVGBackend.render`
(`svg.py`, lines 90-143). -/
structure SvgLayout where
  contentWidth : ℝ
  contentHeight : ℝ
  canvasWidth : ℝ
  canvasHeight : ℝ
  shapeOffsetX : ℝ
  shapeOffsetY : ℝ

/-- Layout of `SVGBackend.render`: `ruler_size = 30 if show_rulers else 0`;
`canvas = ruler + content`; shapes are emitted inside a group translated by
`shape_offset = ruler + margin_left - min_x` (lines 141-143), so a shape at
local `x` lands at output `x + shapeOffsetX`. -/
noncomputable def svgLayout (shapes : List OdShape) (o : RenderOpts) : SvgLayout :=
  let rulerSize : ℝ := if o.showRulers then 30 else 0
  let c := svgContentBox shapes o
  { contentWidth := c.2.2.1
    contentHeight := c.2.2.2
    canvasWidth := rulerSize + c.2.2.1
    canvasHeight := rulerSize + c.2.2.2
    shapeOffsetX := rulerSize + (o.mLeft : ℝ) - c.1
    shapeOffsetY := rulerSize + (o.mTop : ℝ) - c.2.1 }

/-- An options bag declaring explicit 100×100 dimensions with a uniform
margin of 20 and no rulers (as merged by `Diagram(width=100, height=100)`
followed by `render(..., margin=20)`). -/
def explicit100Opts : RenderOpts :=
  { width := 100, height := 100, explicitDimensions := true, margin := 20 }

/-- Python's `min(xs)` over a list: `none` on the empty list (where Python
raises `ValueError`). -/
def pyMin : List ℚ → Option ℚ
  | [] => none
  | a :: l => some (l.foldl min a)

/-- Python's `max(xs)` over a list: `none` on the empty list. -/
def pyMax : List ℚ → Option ℚ
  | [] => none
  | a :: l => some (l.foldl max a)

/-- Fields of the exported `Polygon` (`od_draw/shapes/base.py`, lines
154-181) that its constructor sets; styling fields omitted as in
`OdShape`. -/
structure PolygonShape where
  x : ℚ
  y : ℚ
  width : ℚ
  height : ℚ
  points : List (ℚ × ℚ)
  rotation : ℚ
  deriving DecidableEq

/-- Whether an `Except` result is a success. -/
def isOkB {ε α : Type} : Except ε α → Bool
  | .ok _ => true
  | .error _ => false

/-- `Polygon.__init__` of `od_draw/shapes/base.py` (lines 154-181) — the
`Polygon` the `shapes` package exports.  It raises
`ValueError("Polygon must have at least one point")` when `not points`,
i.e. only for an empty list; for any nonempty list it derives the
bounding box from the min/max of the coordinates and succeeds.  (The
`getD 0` defaults are unreachable: the list is nonempty there.) -/
def mkPolygon (points : List (ℚ × ℚ)) (rotation : ℚ) :
    Except String PolygonShape :=
  if points.isEmpty then
    Except.error "Polygon must have at least one point"
  else
    let xs := points.map Prod.fst
    let ys := points.map Prod.snd
    let x := (pyMin xs).getD 0
    let y := (pyMin ys).getD 0
    Except.ok
      { x := x, y := y,
        width := (pyMax xs).getD 0 - x, height := (pyMax ys).getD 0 - y,
        points := points, rotation := rotation }

/-- A shape object in a Draw.io page (`od_draw/drawio/object.py`,
`Object`), restricted to the geometry and shape-type data the
`DrawIOBackend` sets; the style-string attributes (colors, stroke width,
rotation, dash) ride along in the style and are not modelled. -/
structure DrawioObject where
  shapeType : String
  x : ℚ
  y : ℚ
  width : ℚ
  height : ℚ
  polyCoords : Option (List (ℚ × ℚ))
  deriving DecidableEq

/-- A node of a page's `objects` list: the two mandatory placeholder
`mxCell` nodes appended by `Page.__init__` (`od_draw/drawio/page.py`,
lines 48-49), or a shape object. -/
inductive DrawioNode where
  | placeholder (id : Nat) (parent : Option Nat)
  | object (obj : DrawioObject)
  deriving DecidableEq

/-- `DrawIOBackend._normalize_polygon_points` (`drawio.py`, lines 72-91):
each point becomes `((p - boxMin) / boxSize)` per axis, with 0 substituted
when a box dimension is not positive. -/
def normalizePolygonPoints (points : List (ℚ × ℚ)) (x y w h : ℚ) :
    List (ℚ × ℚ) :=
  points.map (fun p =>
    (if w > 0 then (p.1 - x) / w else 0, if h > 0 then (p.2 - y) / h else 0))

/-- `Triangle.get_points` (`od_draw/shapes/base.py`, lines 145-151):
top center, bottom left, bottom right. -/
def trianglePoints (x y w h : ℚ) : List (ℚ × ℚ) :=
  [(x + w / 2, y), (x, y + h), (x + w, y + h)]

/-- `DrawIOBackend._add_shape_to_page` (`drawio.py`, lines 93-187): a
`Line` is skipped (`return`, no object created, no error); a `Circle`
becomes an "ellipse" object; a `Triangle` or `Polygon` becomes an
"mxgraph.basic.polygon" object positioned at the min/max bounding box of
its point list with normalized point coordinates; a `Rectangle`/`Square`
becomes a "rectangle" object.  (As in `mkPolygon`, the `getD 0` defaults
are unreachable for constructor-valid polygons.) -/
def addShapeToPage : OdShape → Option DrawioObject
  | .line _ _ _ _ => none
  | .circle x y r => some ⟨"ellipse", x, y, 2 * r, 2 * r, none⟩
  | .triangle x y w h _rot =>
      let pts := trianglePoints x y w h
      let bx := (pyMin (pts.map Prod.fst)).getD 0
      let bY := (pyMin (pts.map Prod.snd)).getD 0
      let bw := (pyMax (pts.map Prod.fst)).getD 0 - bx
      let bh := (pyMax (pts.map Prod.snd)).getD 0 - bY
      some ⟨"mxgraph.basic.polygon", bx, bY, bw, bh,
        some (normalizePolygonPoints pts bx bY bw bh)⟩
  | .rectangle x y w h _rot => some ⟨"rectangle", x, y, w, h, none⟩
  | .polygon pts _rot =>
      let bx := (pyMin (pts.map Prod.fst)).getD 0
      let bY := (pyMin (pts.map Prod.snd)).getD 0
      let bw := (pyMax (pts.map Prod.fst)).getD 0 - bx
      let bh := (pyMax (pts.map Prod.snd)).getD 0 - bY
      some ⟨"mxgraph.basic.polygon", bx, bY, bw, bh,
        some (normalizePolygonPoints pts bx bY bw bh)⟩

/-- Page contents produced by `DrawIOBackend.render`: `Page.__init__`
seeds the `objects` list with the two placeholder `mxCell` nodes, then
`_add_shape_to_page` appends one object per non-`Line` shape in list
order. -/
def renderDrawioPage (shapes : List OdShape) : List DrawioNode :=
  [DrawioNode.placeholder 0 none, DrawioNode.placeholder 1 (some 0)]
    ++ (shapes.filterMap addShapeToPage).map DrawioNode.object

/-- Whether a page node is a shape object (not a placeholder). -/
def isObjectNode : DrawioNode → Bool
  | .object _ => true
  | .placeholder _ _ => false

/-- Whether a shape is a `Line`. -/
def isLine : OdShape → Bool
  | .line _ _ _ _ => true
  | _ => false

/-- Python's `str.upper` on a single character (ASCII range, which covers
every character that can appear in a valid hex color string). -/
def pyUpperChar (c : Char) : Char :=
  if 97 ≤ c.toNat ∧ c.toNat ≤ 122 then Char.ofNat (c.toNat - 32) else c

/-- Value of one hexadecimal digit character as accepted by Python's
`int(s, 16)`: digits `0-9`, letters `a-f` and `A-F`; `none` (Python: a
`ValueError`) otherwise. -/
def charHexVal (c : Char) : Option Nat :=
  if 48 ≤ c.toNat ∧ c.toNat ≤ 57 then some (c.toNat - 48)
  else if 97 ≤ c.toNat ∧ c.toNat ≤ 102 then some (c.toNat - 87)
  else if 65 ≤ c.toNat ∧ c.toNat ≤ 70 then some (c.toNat - 55)
  else none

/-- Python's `int(s, 16)` on a two-character slice, as used by
`Color._hex_to_rgb` and the alpha extraction. -/
def parseHexByte (a b : Char) : Option Nat :=
  match charHexVal a, charHexVal b with
  | some x, some y => some (16 * x + y)
  | _, _ => none

/-- The uppercase hexadecimal digit character for a value below 16, as
produced by Python's `format(n, "02X")`. -/
def upperHexDigit (n : Nat) : Char :=
  if n < 10 then Char.ofNat (48 + n) else Char.ofNat (55 + n)

/-- Python's `format(n, "02X")` for a byte value `n < 256`. -/
def hexByte (n : Nat) : List Char :=
  [upperHexDigit (n / 16), upperHexDigit (n % 16)]

/-- Python's `int()` truncation toward zero on a rational. -/
def pyTrunc (q : ℚ) : ℤ :=
  if 0 ≤ q then ⌊q⌋ else ⌈q⌉

/-- The state a constructed `Color` carries (`od_draw/colors.py`):
`hex_color` is the uppercased input string, `rgb` the three parsed bytes,
`alpha` the opacity in `[0, 1]`. -/
structure PyColor where
  hexColor : List Char
  rgb : Nat × Nat × Nat
  alpha : ℚ
  deriving DecidableEq

/-- `Color._hex_to_rgb` (`colors.py`, lines 53-58): parses the three
leading two-character slices; `none` when any digit is invalid. -/
def hexToRgb (digits : List Char) : Option (Nat × Nat × Nat) :=
  match digits with
  | a :: b :: c :: d :: e :: f :: _ =>
    match parseHexByte a b, parseHexByte c d, parseHexByte e f with
    | some r, some g, some bl => some (r, g, bl)
    | _, _, _ => none
  | _ => none

/-- Length dispatch of `Color.__init__` (`colors.py`, lines 36-47) on the
digit string after the optional `#` strip: 6 digits parse rgb with alpha
defaulting to 1; 8 digits parse rgb plus an embedded alpha
`int(digits[6:8], 16) / 255` which an explicit alpha argument overrides;
any other length is `ValueError("Invalid hex color ...")`. -/
def colorStep (hexDigits : List Char) (alpha : Option ℚ) :
    Except String ((Nat × Nat × Nat) × ℚ) :=
  if hexDigits.length = 6 then
    match hexToRgb hexDigits with
    | some rgb => Except.ok (rgb, alpha.getD 1)
    | none => Except.error "invalid hexadecimal digit"
  else if hexDigits.length = 8 then
    match hexDigits with
    | a :: b :: c :: d :: e :: f :: g :: hh :: _ =>
      match hexToRgb [a, b, c, d, e, f], parseHexByte g hh with
      | some rgb, some av => Except.ok (rgb, alpha.getD ((av : ℚ) / 255))
      | _, _ => Except.error "invalid hexadecimal digit"
    | _ => Except.error "invalid hexadecimal digit"
  else
    Except.error "Invalid hex color"

/-- `Color.__init__` (`colors.py`, lines 19-51): uppercase the input,
strip a leading `#`, dispatch on digit count (`colorStep`), then validate
`0 <= alpha <= 1` (raising `ValueError` outside the range). -/
def mkColor (hexColor : List Char) (alpha : Option ℚ) :
    Except String PyColor :=
  let upper := hexColor.map pyUpperChar
  let hexDigits := if upper.head? = some '#' then upper.tail else upper
  match colorStep hexDigits alpha with
  | .error e => .error e
  | .ok (rgb, a) =>
    if 0 ≤ a ∧ a ≤ 1 then .ok ⟨upper, rgb, a⟩
    else .error "Alpha must be between 0 and 1"

/-- `Color.to_hex` (`colors.py`, lines 60-73): `#RRGGBB`, plus the
truncated alpha byte when `include_alpha` is true. -/
def toHex (c : PyColor) (includeAlpha : Bool) : List Char :=
  let base := '#' :: (hexByte c.rgb.1 ++ hexByte c.rgb.2.1 ++ hexByte c.rgb.2.2)
  if includeAlpha then base ++ hexByte (pyTrunc (c.alpha * 255)).toNat
  else base

deriving instance DecidableEq for Except

/-- C1 (counterexample): passing `backend="png"` with an output path ending
in `".svg"` selects the vector backend, not the raster backend — the first
`if` of `Diagram.render` fires on the extension even though an explicit
different backend name was passed. -/
theorem selectBackend_png_arg_svg_path :
    selectBackend (some "png") "diagram.svg" none = BackendTag.svg := by
  decide

/-- C1 (amended): the actual selection precedence of `Diagram.render`.  A
`".svg"` path extension (or `backend="svg"`) always selects the vector
backend, overriding any explicit backend argument; otherwise
`backend="png"` or a `".png"` extension selects raster (the extension
fires for any backend argument other than `"svg"`); otherwise
`backend="drawio"` or a `".drawio"` extension selects interchange (the
extension fires for any backend argument other than `"svg"`/`"png"`);
otherwise the previously bound backend is used, and with none bound the
default vector backend. -/
theorem selectBackend_precedence (p : String) (bound : Option BackendTag) :
    (∀ b, pyEndsWith p ".svg" = true → selectBackend b p bound = .svg)
    ∧ (selectBackend (some "svg") p bound = .svg)
    ∧ (pyEndsWith p ".svg" = false → selectBackend (some "png") p bound = .png)
    ∧ (∀ b, b ≠ some "svg" → pyEndsWith p ".svg" = false →
        pyEndsWith p ".png" = true → selectBackend b p bound = .png)
    ∧ (pyEndsWith p ".svg" = false → pyEndsWith p ".png" = false →
        selectBackend (some "drawio") p bound = .drawio)
    ∧ (∀ b, b ≠ some "svg" → b ≠ some "png" → pyEndsWith p ".svg" = false →
        pyEndsWith p ".png" = false → pyEndsWith p ".drawio" = true →
        selectBackend b p bound = .drawio)
    ∧ (∀ b, b ≠ some "svg" → b ≠ some "png" → b ≠ some "drawio" →
        pyEndsWith p ".svg" = false → pyEndsWith p ".png" = false →
        pyEndsWith p ".drawio" = false →
        selectBackend b p bound = bound.getD .svg) := by
  refine ⟨?_, ?_, ?_, ?_, ?_, ?_, ?_⟩
  · intro b h
    simp [selectBackend, h]
  · simp [selectBackend]
  · intro h
    simp [selectBackend, h]
  · intro b hb1 h1 h2
    simp [selectBackend, h1, h2, hb1]
  · intro h1 h2
    simp [selectBackend, h1, h2]
  · intro b hb1 hb2 h1 h2 h3
    simp [selectBackend, h1, h2, h3, hb1, hb2]
  · intro b hb1 hb2 hb3 h1 h2 h3
    simp [selectBackend, h1, h2, h3, hb1, hb2, hb3]

/-- C1 (witness): the amended precedence at concrete inputs — a `.svg`
path overrides `backend="png"`; without that extension the explicit `png`
argument wins; a `.png` path with no backend argument selects raster; and
a `.drawio` path selects interchange even over a bound raster backend. -/
theorem selectBackend_precedence_concrete :
    selectBackend (some "png") "d.svg" none = .svg
    ∧ selectBackend (some "png") "d.txt" none = .png
    ∧ selectBackend none "d.png" none = .png
    ∧ selectBackend none "d.drawio" (some .png) = .drawio :=
  ⟨(selectBackend_precedence "d.svg" none).1 (some "png") (by decide),
   (selectBackend_precedence "d.txt" none).2.2.1 (by decide),
   (selectBackend_precedence "d.png" none).2.2.2.1 none (by decide)
     (by decide) (by decide),
   (selectBackend_precedence "d.drawio" (some .png)).2.2.2.2.2.1 none
     (by decide) (by decide) (by decide) (by decide) (by decide)⟩

/-- C5 (counterexample): an unknown backend name together with an unknown
extension does not fail — `Diagram.render` silently falls back to the
default vector backend (no `UnsupportedBackend` error exists anywhere in
the code, and no branch of the selection raises). -/
theorem selectBackend_unknown_fallback :
    selectBackend (some "webp") "out.txt" none = BackendTag.svg := by
  decide

/-- C5 (amended): for a backend name that is not one of the known backends
and an output path whose extension is not one of the known extensions,
`Diagram.render` raises no error: it silently renders with the previously
bound backend, or with the default vector backend when none is bound. -/
theorem selectBackend_unknown (b : Option String) (p : String)
    (bound : Option BackendTag)
    (hb1 : b ≠ some "svg") (hb2 : b ≠ some "png") (hb3 : b ≠ some "drawio")
    (h1 : pyEndsWith p ".svg" = false) (h2 : pyEndsWith p ".png" = false)
    (h3 : pyEndsWith p ".drawio" = false) :
    selectBackend b p bound = bound.getD .svg := by
  simp [selectBackend, h1, h2, h3, hb1, hb2, hb3]

/-- C5 (witness): with a bound raster backend, an unknown name and
extension reuse that bound backend and raise nothing. -/
theorem selectBackend_unknown_concrete :
    selectBackend (some "webp") "out.txt" (some .png) = .png :=
  selectBackend_unknown (some "webp") "out.txt" (some .png)
    (by decide) (by decide) (by decide) (by decide) (by decide) (by decide)

/-- C2 (counterexample): the vector and raster backends do not compute the
same final canvas size.  With explicitly declared 100×100 dimensions and
`margin=20`, the vector backend's canvas width is 100 (margins ignored
under explicit dimensions) while the raster backend's is 140. -/
theorem svg_png_canvas_disagree :
    (svgLayout [OdShape.rectangle 0 0 50 50 0] explicit100Opts).canvasWidth
      ≠ ((pngCanvasSize explicit100Opts).1 : ℝ) := by
  simp [svgLayout, svgContentBox, pngCanvasSize, RenderOpts.mLeft,
    RenderOpts.mRight, explicit100Opts]
  norm_num

/-- C2 (amended): the canvas-sizing policies differ per backend.  Under
explicitly declared dimensions the vector backend's content area is the
declared size with margins ignored (canvas = ruler band + declared size);
the raster backend's canvas is always declared size plus margins with no
ruler band; the interchange backend writes a fixed 850×1100 page.  Under
explicit dimensions the vector and raster canvas sizes agree on an axis
exactly when the ruler band (30 when rulers are requested, otherwise 0)
equals the sum of the two margins on that axis; in particular they agree
when all margins are zero and rulers are off. -/
theorem backend_canvas_formulas (shapes : List OdShape) (o : RenderOpts)
    (h : o.explicitDimensions = true) :
    (svgLayout shapes o).canvasWidth
        = (if o.showRulers then (30 : ℝ) else 0) + (o.width : ℝ)
    ∧ (svgLayout shapes o).canvasHeight
        = (if o.showRulers then (30 : ℝ) else 0) + (o.height : ℝ)
    ∧ (pngCanvasSize o).1 = o.width + o.mLeft + o.mRight
    ∧ (pngCanvasSize o).2 = o.height + o.mTop + o.mBottom
    ∧ drawioPageSize = (850, 1100)
    ∧ ((svgLayout shapes o).canvasWidth = ((pngCanvasSize o).1 : ℝ)
        ↔ (if o.showRulers then (30 : ℚ) else 0) = o.mLeft + o.mRight)
    ∧ ((svgLayout shapes o).canvasHeight = ((pngCanvasSize o).2 : ℝ)
        ↔ (if o.showRulers then (30 : ℚ) else 0) = o.mTop + o.mBottom) := by
  have hr : ((if o.showRulers then (30 : ℚ) else 0 : ℚ) : ℝ)
      = (if o.showRulers then (30 : ℝ) else 0) := by
    split_ifs <;> norm_num
  have hw : (svgLayout shapes o).canvasWidth
      = (if o.showRulers then (30 : ℝ) else 0) + (o.width : ℝ) := by
    simp [svgLayout, svgContentBox, h]
  have hh : (svgLayout shapes o).canvasHeight
      = (if o.showRulers then (30 : ℝ) else 0) + (o.height : ℝ) := by
    simp [svgLayout, svgContentBox, h]
  refine ⟨hw, hh, rfl, rfl, rfl, ?_, ?_⟩
  · rw [hw, ← hr]
    show _ = ((o.width + o.mLeft + o.mRight : ℚ) : ℝ) ↔ _
    push_cast
    constructor
    · intro he
      have hcast : ((if o.showRulers then (30 : ℚ) else 0 : ℚ) : ℝ)
          = ((o.mLeft + o.mRight : ℚ) : ℝ) := by
        push_cast
        linarith
      exact_mod_cast hcast
    · intro he
      rw [he]
      push_cast
      ring
  · rw [hh, ← hr]
    show _ = ((o.height + o.mTop + o.mBottom : ℚ) : ℝ) ↔ _
    push_cast
    constructor
    · intro he
      have hcast : ((if o.showRulers then (30 : ℚ) else 0 : ℚ) : ℝ)
          = ((o.mTop + o.mBottom : ℚ) : ℝ) := by
        push_cast
        linarith
      exact_mod_cast hcast
    · intro he
      rw [he]
      push_cast
      ring

/-- C2 (witness): the formulas at a concrete options bag (declared 100×100,
margin 20, no rulers): the vector canvas is 100 wide, the raster canvas
140. -/
theorem backend_canvas_formulas_concrete :
    (svgLayout [] explicit100Opts).canvasWidth = 100
    ∧ (pngCanvasSize explicit100Opts).1 = 140 := by
  have h := backend_canvas_formulas [] explicit100Opts rfl
  refine ⟨?_, ?_⟩
  · rw [h.1]; norm_num [explicit100Opts]
  · rw [h.2.2.1]
    norm_num [RenderOpts.mLeft, RenderOpts.mRight, explicit100Opts]

/-- Auto-fit bounding box of the single unrotated rectangle at
`(10, 10, 100, 50)` (helper for the C4 theorems). -/
theorem rect_10_10_100_50_bbox :
    calculateBoundingBox [OdShape.rectangle 10 10 100 50 0]
      = (10, 10, 110, 60) := by
  simp [calculateBoundingBox, bboxPointsOfShape, rectLikePoints,
    minFold, maxFold]
  norm_num [min_def, max_def]

/-- C4 (counterexample): for the single unrotated rectangle at
`(10, 10, 100, 50)` rendered auto-fit with `margin=20` on all sides, the
content area height is not 80 (it is 50 + 20 + 20 = 90), and the shape
does not land at x = 30 (the group translation is
`margin_left - min_x = 10`, so it lands at 20). -/
theorem svg_autofit_rect_margin20_not_claimed :
    (svgLayout [OdShape.rectangle 10 10 100 50 0]
        { margin := 20 }).contentHeight ≠ 80
    ∧ (svgLayout [OdShape.rectangle 10 10 100 50 0]
        { margin := 20 }).shapeOffsetX + 10 ≠ 30 := by
  constructor
  · norm_num [svgLayout, svgContentBox, rect_10_10_100_50_bbox,
      RenderOpts.mTop, RenderOpts.mBottom]
  · norm_num [svgLayout, svgContentBox, rect_10_10_100_50_bbox,
      RenderOpts.mLeft]

/-- C4 (amended): for the diagram containing exactly the unrotated
rectangle at `(10, 10, 100, 50)` rendered auto-fit by the vector backend,
the content bounding box with no margin is exactly `(10,10)-(110,60)`
(content area 100×50); with `margin=20` on all four sides the final
content area is 140×90 and the shape is translated so it lands at
`(20, 20)` in output coordinates. -/
theorem svg_autofit_rect_layout :
    calculateBoundingBox [OdShape.rectangle 10 10 100 50 0]
      = (10, 10, 110, 60)
    ∧ (svgLayout [OdShape.rectangle 10 10 100 50 0]
        { margin := 0 }).contentWidth = 100
    ∧ (svgLayout [OdShape.rectangle 10 10 100 50 0]
        { margin := 0 }).contentHeight = 50
    ∧ (svgLayout [OdShape.rectangle 10 10 100 50 0]
        { margin := 20 }).contentWidth = 140
    ∧ (svgLayout [OdShape.rectangle 10 10 100 50 0]
        { margin := 20 }).contentHeight = 90
    ∧ (svgLayout [OdShape.rectangle 10 10 100 50 0]
        { margin := 20 }).shapeOffsetX + 10 = 20
    ∧ (svgLayout [OdShape.rectangle 10 10 100 50 0]
        { margin := 20 }).shapeOffsetY + 10 = 20 := by
  refine ⟨rect_10_10_100_50_bbox, ?_, ?_, ?_, ?_, ?_, ?_⟩ <;>
    norm_num [svgLayout, svgContentBox, rect_10_10_100_50_bbox,
      RenderOpts.mTop, RenderOpts.mBottom, RenderOpts.mLeft,
      RenderOpts.mRight]

/-- Forty-five degrees in radians is `π/4` (helper for the C6 theorem). -/
theorem radians_45 : radians 45 = Real.pi / 4 := by
  unfold radians
  push_cast
  ring

/-- C6: a Square of side 100 at the origin with rotation 45° has an
auto-fit bounding box of width and height exactly `100·√2 ≈ 141.42`
(`_calculate_bounding_box` rotates the four corners about the square's
own bounding-box center `(50, 50)` before taking the min/max), and
`100·√2` is not 100. -/
theorem square_rot45_bbox :
    (calculateBoundingBox [square 0 0 100 45]).2.2.1
        - (calculateBoundingBox [square 0 0 100 45]).1 = 100 * Real.sqrt 2
    ∧ (calculateBoundingBox [square 0 0 100 45]).2.2.2
        - (calculateBoundingBox [square 0 0 100 45]).2.1 = 100 * Real.sqrt 2
    ∧ (100 : ℝ) * Real.sqrt 2 ≠ 100 := by
  have hcos : Real.cos (radians 45) = Real.sqrt 2 / 2 := by
    rw [radians_45, Real.cos_pi_div_four]
  have hsin : Real.sin (radians 45) = Real.sqrt 2 / 2 := by
    rw [radians_45, Real.sin_pi_div_four]
  have hs2 : (0 : ℝ) ≤ Real.sqrt 2 := Real.sqrt_nonneg 2
  have hs1 : (1 : ℝ) < Real.sqrt 2 := by
    nlinarith [Real.sq_sqrt (show (0 : ℝ) ≤ 2 by norm_num),
      Real.sqrt_nonneg 2]
  have hpts : bboxPointsOfShape (square 0 0 100 45)
      = [((50 : ℝ), 50 - 50 * Real.sqrt 2),
         (50 + 50 * Real.sqrt 2, (50 : ℝ)),
         ((50 : ℝ), 50 + 50 * Real.sqrt 2),
         (50 - 50 * Real.sqrt 2, (50 : ℝ))] := by
    simp only [square, bboxPointsOfShape, rectLikePoints]
    rw [if_pos (by norm_num : (45 : ℚ) ≠ 0)]
    simp only [List.map_cons, List.map_nil, rotatePoint, hcos, hsin]
    norm_num
    refine ⟨by ring, by ring, by ring⟩
  have hbb : calculateBoundingBox [square 0 0 100 45]
      = (50 - 50 * Real.sqrt 2, 50 - 50 * Real.sqrt 2,
         50 + 50 * Real.sqrt 2, 50 + 50 * Real.sqrt 2) := by
    simp only [calculateBoundingBox, List.isEmpty_cons, List.map_cons,
      List.map_nil, List.flatten, List.append_nil, hpts, if_neg,
      Bool.false_eq_true, not_false_iff]
    simp only [List.foldl_cons, List.foldl_nil, minFold, maxFold,
      Option.elim_none, Option.elim_some, Option.getD_some, List.map_cons,
      List.map_nil]
    have e1 : (50 : ℝ) ≤ 50 + 50 * Real.sqrt 2 := by nlinarith
    have e2 : (50 : ℝ) - 50 * Real.sqrt 2 ≤ 50 := by nlinarith
    have e3 : (50 : ℝ) - 50 * Real.sqrt 2 ≤ 50 + 50 * Real.sqrt 2 := by
      nlinarith
    simp only [Prod.mk.injEq]
    refine ⟨?_, ?_, ?_, ?_⟩
    · rw [min_eq_left e1, min_self, min_eq_right e2]
    · rw [min_eq_left e2, min_eq_left e3, min_eq_left e2]
    · rw [max_eq_right e1, max_eq_left e1, max_eq_left e3]
    · rw [max_eq_right e2, max_eq_right e1, max_eq_left e1]
  rw [hbb]
  refine ⟨by ring, by ring, ?_⟩
  intro h
  nlinarith

/-- A `Line` never produces an object (first branch of
`_add_shape_to_page`). -/
theorem addShapeToPage_line (s : OdShape) (h : isLine s = true) :
    addShapeToPage s = none := by
  cases s <;> simp_all [isLine, addShapeToPage]

/-- A non-`Line` shape always produces exactly one object. -/
theorem addShapeToPage_nonline (s : OdShape) (h : isLine s = false) :
    (addShapeToPage s).isSome = true := by
  cases s <;> simp_all [isLine, addShapeToPage]

/-- C3 (counterexample): constructing the exported `Polygon` with only two
points — and even with a single point — succeeds; no `InsufficientPoints`
failure occurs below three points. -/
theorem polygon_two_points_succeeds :
    mkPolygon [(0, 0), (1, 1)] 0
      = Except.ok ⟨0, 0, 1, 1, [(0, 0), (1, 1)], 0⟩
    ∧ isOkB (mkPolygon [(2, 3)] 0) = true := by
  constructor
  · simp [mkPolygon, pyMin, pyMax]
  · simp [mkPolygon, isOkB]

/-- C3 (amended): construction of the `Polygon` exported at the package's
public interface (`od_draw.shapes.base.Polygon`) fails — with a plain
`ValueError`, no `InsufficientPoints` error type exists in the code —
exactly when the point list is empty; construction with one or more
points succeeds, in particular with 1 or 2 points. -/
theorem mkPolygon_ok_iff (points : List (ℚ × ℚ)) (rotation : ℚ) :
    isOkB (mkPolygon points rotation) = !points.isEmpty := by
  cases points <;> simp [mkPolygon, isOkB]

/-- C8: rendering one `Line` and one `Rectangle` with the interchange
backend yields exactly one shape-object node in the page (the rectangle);
in general the number of object nodes equals the number of non-`Line`
shapes, and splicing any `Line` anywhere into the shape list leaves the
rendered page unchanged — lines are skipped silently, never encoded and
never an error. -/
theorem drawio_skips_lines :
    (renderDrawioPage
        [OdShape.line 0 0 50 50, OdShape.rectangle 10 10 100 50 0]).filter
        isObjectNode
      = [DrawioNode.object ⟨"rectangle", 10, 10, 100, 50, none⟩]
    ∧ (∀ shapes : List OdShape,
        ((renderDrawioPage shapes).filter isObjectNode).length
          = (shapes.filter (fun s => !isLine s)).length)
    ∧ (∀ (pre post : List OdShape) (l : OdShape), isLine l = true →
        renderDrawioPage (pre ++ l :: post) = renderDrawioPage (pre ++ post)) := by
  refine ⟨rfl, ?_, ?_⟩
  · intro shapes
    induction shapes with
    | nil => rfl
    | cons s t ih =>
      cases s <;>
        simp_all [renderDrawioPage, addShapeToPage, isLine, isObjectNode]
  · intro pre post l hl
    simp [renderDrawioPage, List.filterMap_append,
      addShapeToPage_line l hl]

/-- `Char.ofNat` round-trips on codepoints below the surrogate range. -/
theorem toNat_ofNat_valid (n : Nat) (h : n < 55296) :
    (Char.ofNat n).toNat = n := by
  unfold Char.ofNat
  rw [dif_pos (Or.inl h)]
  rfl

/-- Any valid hex digit has value below 16, keeps its value under
uppercasing (so parsing the uppercased string agrees with parsing the
input), formats back to its uppercased self, and never uppercases to
`#`. -/
theorem charHexVal_cases (c : Char) (v : Nat) (h : charHexVal c = some v) :
    v < 16 ∧ charHexVal (pyUpperChar c) = some v
      ∧ upperHexDigit v = pyUpperChar c ∧ pyUpperChar c ≠ '#' := by
  unfold charHexVal at h
  split_ifs at h with hd hl hu
  · -- digit 0-9
    injection h with hv
    subst hv
    have hup : pyUpperChar c = c := by
      unfold pyUpperChar
      rw [if_neg (by omega)]
    refine ⟨by omega, ?_, ?_, ?_⟩
    · rw [hup]
      unfold charHexVal
      rw [if_pos hd]
    · rw [hup]
      unfold upperHexDigit
      rw [if_pos (by omega), show 48 + (c.toNat - 48) = c.toNat by omega,
        Char.ofNat_toNat]
    · rw [hup]
      intro heq
      have h35 : c.toNat = 35 := by rw [heq]; rfl
      omega
  · -- lowercase a-f
    injection h with hv
    subst hv
    have hup : pyUpperChar c = Char.ofNat (c.toNat - 32) := by
      unfold pyUpperChar
      rw [if_pos (by omega)]
    have htn : (Char.ofNat (c.toNat - 32)).toNat = c.toNat - 32 :=
      toNat_ofNat_valid _ (by omega)
    refine ⟨by omega, ?_, ?_, ?_⟩
    · rw [hup]
      unfold charHexVal
      rw [if_neg (by rw [htn]; omega), if_neg (by rw [htn]; omega),
        if_pos (by rw [htn]; omega), htn]
      exact congrArg some (by omega)
    · rw [hup]
      unfold upperHexDigit
      rw [if_neg (by omega)]
      congr 1
      omega
    · rw [hup]
      intro heq
      have h35 := congrArg Char.toNat heq
      rw [htn] at h35
      have : (35 : Nat) = Char.toNat '#' := rfl
      omega
  · -- uppercase A-F
    injection h with hv
    subst hv
    have hup : pyUpperChar c = c := by
      unfold pyUpperChar
      rw [if_neg (by omega)]
    refine ⟨by omega, ?_, ?_, ?_⟩
    · rw [hup]
      unfold charHexVal
      rw [if_neg (by omega), if_neg (by omega), if_pos hu]
    · rw [hup]
      unfold upperHexDigit
      rw [if_neg (by omega), show 55 + (c.toNat - 55) = c.toNat by omega,
        Char.ofNat_toNat]
    · rw [hup]
      intro heq
      have h35 : c.toNat = 35 := by rw [heq]; rfl
      omega

/-- `format(16*x + y, "02X")` splits back into the two digits. -/
theorem hexByte_pair (x y : Nat) (hx : x < 16) (hy : y < 16) :
    hexByte (16 * x + y) = [upperHexDigit x, upperHexDigit y] := by
  have h1 : (16 * x + y) / 16 = x := by omega
  have h2 : (16 * x + y) % 16 = y := by omega
  rw [hexByte, h1, h2]

/-- C8 (witness): splicing a `Line` between a rectangle and a circle
leaves the rendered interchange page unchanged. -/
theorem drawio_skips_lines_concrete :
    renderDrawioPage
        [OdShape.rectangle 1 2 3 4 0, OdShape.line 0 0 9 9,
          OdShape.circle 5 5 2]
      = renderDrawioPage [OdShape.rectangle 1 2 3 4 0, OdShape.circle 5 5 2] :=
  (drawio_skips_lines).2.2 [OdShape.rectangle 1 2 3 4 0]
    [OdShape.circle 5 5 2] (OdShape.line 0 0 9 9) rfl

/-- C9: `Diagram.render` leaves the diagram's width, height, units and
shape list (contents and order) unchanged; the only field that changes is
the cached bound backend, which becomes the selected backend. -/
theorem diagramRender_frame (d : DiagramState) (b : Option String)
    (p : String) :
    (diagramRenderState d b p).width = d.width
    ∧ (diagramRenderState d b p).height = d.height
    ∧ (diagramRenderState d b p).units = d.units
    ∧ (diagramRenderState d b p).shapes = d.shapes
    ∧ (diagramRenderState d b p).backend
        = some (selectBackend b p d.backend) := by
  exact ⟨rfl, rfl, rfl, rfl, rfl⟩

/-- Evaluation of `Color.__init__` on a `#`-prefixed 6-digit string of
valid hex digits: rgb from the three digit pairs, alpha defaulting to 1,
subject to the final alpha-range check. -/
theorem mkColor_hash_six
    (c1 c2 c3 c4 c5 c6 : Char) (v1 v2 v3 v4 v5 v6 : Nat)
    (h1 : charHexVal c1 = some v1) (h2 : charHexVal c2 = some v2)
    (h3 : charHexVal c3 = some v3) (h4 : charHexVal c4 = some v4)
    (h5 : charHexVal c5 = some v5) (h6 : charHexVal c6 = some v6)
    (a : Option ℚ) :
    mkColor ['#', c1, c2, c3, c4, c5, c6] a
      = if 0 ≤ a.getD 1 ∧ a.getD 1 ≤ 1 then
          Except.ok ⟨['#', pyUpperChar c1, pyUpperChar c2, pyUpperChar c3,
            pyUpperChar c4, pyUpperChar c5, pyUpperChar c6],
            (16 * v1 + v2, 16 * v3 + v4, 16 * v5 + v6), a.getD 1⟩
        else Except.error "Alpha must be between 0 and 1" := by
  have u1 := (charHexVal_cases c1 v1 h1).2.1
  have u2 := (charHexVal_cases c2 v2 h2).2.1
  have u3 := (charHexVal_cases c3 v3 h3).2.1
  have u4 := (charHexVal_cases c4 v4 h4).2.1
  have u5 := (charHexVal_cases c5 v5 h5).2.1
  have u6 := (charHexVal_cases c6 v6 h6).2.1
  have hh : pyUpperChar '#' = '#' := by decide
  simp only [mkColor, List.map_cons, List.map_nil, hh, List.head?_cons,
    Option.some.injEq, if_pos rfl, List.tail_cons, colorStep,
    List.length_cons, List.length_nil, hexToRgb, parseHexByte,
    u1, u2, u3, u4, u5, u6, ite_true]

/-- Evaluation of `Color.__init__` on a bare 6-digit string (no `#`):
identical to the `#`-prefixed case except for the stored
`hex_color` string. -/
theorem mkColor_plain_six
    (c1 c2 c3 c4 c5 c6 : Char) (v1 v2 v3 v4 v5 v6 : Nat)
    (h1 : charHexVal c1 = some v1) (h2 : charHexVal c2 = some v2)
    (h3 : charHexVal c3 = some v3) (h4 : charHexVal c4 = some v4)
    (h5 : charHexVal c5 = some v5) (h6 : charHexVal c6 = some v6)
    (a : Option ℚ) :
    mkColor [c1, c2, c3, c4, c5, c6] a
      = if 0 ≤ a.getD 1 ∧ a.getD 1 ≤ 1 then
          Except.ok ⟨[pyUpperChar c1, pyUpperChar c2, pyUpperChar c3,
            pyUpperChar c4, pyUpperChar c5, pyUpperChar c6],
            (16 * v1 + v2, 16 * v3 + v4, 16 * v5 + v6), a.getD 1⟩
        else Except.error "Alpha must be between 0 and 1" := by
  have u1 := (charHexVal_cases c1 v1 h1).2.1
  have u2 := (charHexVal_cases c2 v2 h2).2.1
  have u3 := (charHexVal_cases c3 v3 h3).2.1
  have u4 := (charHexVal_cases c4 v4 h4).2.1
  have u5 := (charHexVal_cases c5 v5 h5).2.1
  have u6 := (charHexVal_cases c6 v6 h6).2.1
  have n1 := (charHexVal_cases c1 v1 h1).2.2.2
  simp only [mkColor, List.map_cons, List.map_nil, List.head?_cons,
    Option.some.injEq, n1, ite_false, colorStep,
    List.length_cons, List.length_nil, hexToRgb, parseHexByte,
    u1, u2, u3, u4, u5, u6, ite_true]

/-- Evaluation of `Color.__init__` on a `#`-prefixed 8-digit string: rgb
from the first three pairs, alpha defaulting to the embedded
`int(digits[6:8], 16) / 255`. -/
theorem mkColor_hash_eight
    (c1 c2 c3 c4 c5 c6 c7 c8 : Char) (v1 v2 v3 v4 v5 v6 v7 v8 : Nat)
    (h1 : charHexVal c1 = some v1) (h2 : charHexVal c2 = some v2)
    (h3 : charHexVal c3 = some v3) (h4 : charHexVal c4 = some v4)
    (h5 : charHexVal c5 = some v5) (h6 : charHexVal c6 = some v6)
    (h7 : charHexVal c7 = some v7) (h8 : charHexVal c8 = some v8)
    (a : Option ℚ) :
    mkColor ['#', c1, c2, c3, c4, c5, c6, c7, c8] a
      = if 0 ≤ a.getD (((16 * v7 + v8 : ℕ) : ℚ) / 255)
            ∧ a.getD (((16 * v7 + v8 : ℕ) : ℚ) / 255) ≤ 1 then
          Except.ok ⟨['#', pyUpperChar c1, pyUpperChar c2, pyUpperChar c3,
            pyUpperChar c4, pyUpperChar c5, pyUpperChar c6, pyUpperChar c7,
            pyUpperChar c8],
            (16 * v1 + v2, 16 * v3 + v4, 16 * v5 + v6),
            a.getD (((16 * v7 + v8 : ℕ) : ℚ) / 255)⟩
        else Except.error "Alpha must be between 0 and 1" := by
  have u1 := (charHexVal_cases c1 v1 h1).2.1
  have u2 := (charHexVal_cases c2 v2 h2).2.1
  have u3 := (charHexVal_cases c3 v3 h3).2.1
  have u4 := (charHexVal_cases c4 v4 h4).2.1
  have u5 := (charHexVal_cases c5 v5 h5).2.1
  have u6 := (charHexVal_cases c6 v6 h6).2.1
  have u7 := (charHexVal_cases c7 v7 h7).2.1
  have u8 := (charHexVal_cases c8 v8 h8).2.1
  have hh : pyUpperChar '#' = '#' := by decide
  simp only [mkColor, List.map_cons, List.map_nil, hh, List.head?_cons,
    Option.some.injEq, if_pos rfl, List.tail_cons, colorStep,
    List.length_cons, List.length_nil, hexToRgb, parseHexByte,
    u1, u2, u3, u4, u5, u6, u7, u8, ite_true]
  norm_num

/-- Evaluation of `Color.__init__` on a bare 8-digit string. -/
theorem mkColor_plain_eight
    (c1 c2 c3 c4 c5 c6 c7 c8 : Char) (v1 v2 v3 v4 v5 v6 v7 v8 : Nat)
    (h1 : charHexVal c1 = some v1) (h2 : charHexVal c2 = some v2)
    (h3 : charHexVal c3 = some v3) (h4 : charHexVal c4 = some v4)
    (h5 : charHexVal c5 = some v5) (h6 : charHexVal c6 = some v6)
    (h7 : charHexVal c7 = some v7) (h8 : charHexVal c8 = some v8)
    (a : Option ℚ) :
    mkColor [c1, c2, c3, c4, c5, c6, c7, c8] a
      = if 0 ≤ a.getD (((16 * v7 + v8 : ℕ) : ℚ) / 255)
            ∧ a.getD (((16 * v7 + v8 : ℕ) : ℚ) / 255) ≤ 1 then
          Except.ok ⟨[pyUpperChar c1, pyUpperChar c2, pyUpperChar c3,
            pyUpperChar c4, pyUpperChar c5, pyUpperChar c6, pyUpperChar c7,
            pyUpperChar c8],
            (16 * v1 + v2, 16 * v3 + v4, 16 * v5 + v6),
            a.getD (((16 * v7 + v8 : ℕ) : ℚ) / 255)⟩
        else Except.error "Alpha must be between 0 and 1" := by
  have u1 := (charHexVal_cases c1 v1 h1).2.1
  have u2 := (charHexVal_cases c2 v2 h2).2.1
  have u3 := (charHexVal_cases c3 v3 h3).2.1
  have u4 := (charHexVal_cases c4 v4 h4).2.1
  have u5 := (charHexVal_cases c5 v5 h5).2.1
  have u6 := (charHexVal_cases c6 v6 h6).2.1
  have u7 := (charHexVal_cases c7 v7 h7).2.1
  have u8 := (charHexVal_cases c8 v8 h8).2.1
  have n1 := (charHexVal_cases c1 v1 h1).2.2.2
  simp only [mkColor, List.map_cons, List.map_nil, List.head?_cons,
    Option.some.injEq, n1, ite_false, colorStep,
    List.length_cons, List.length_nil, hexToRgb, parseHexByte,
    u1, u2, u3, u4, u5, u6, u7, u8, ite_true]
  norm_num

/-- When an explicit alpha is passed and parsing succeeds, the parsed
alpha is that explicit value, whatever the digit string was. -/
theorem colorStep_alpha (d : List Char) (a : ℚ) (pr : (Nat × Nat × Nat) × ℚ)
    (h : colorStep d (some a) = .ok pr) : pr.2 = a := by
  unfold colorStep at h
  split_ifs at h
  all_goals repeat' split at h
  all_goals
    first
      | (injection h with h2; subst h2; rfl)
      | simp at h

/-- An explicit `alpha` argument overrides any embedded alpha: every
successfully constructed color stores exactly the explicit value. -/
theorem mkColor_alpha_override (hexColor : List Char) (a : ℚ) (col : PyColor)
    (h : mkColor hexColor (some a) = .ok col) : col.alpha = a := by
  unfold mkColor at h
  dsimp only at h
  split at h
  · simp at h
  · rename_i pr heq
    split_ifs at h
    injection h with h2
    subst h2
    exact colorStep_alpha _ _ _ heq

/-- C7 (amended): for every valid `#`-prefixed 6-hex-digit color string,
parse followed by `to_hex(False)` returns the input uppercased and the
parsed alpha is exactly 1.0 (for a valid 6-digit string without the
leading `#`, `to_hex` returns `#` followed by the uppercased digits, so
the round trip prepends the missing `#` — see the counterexample); for
every valid `#`-prefixed 8-hex-digit string the parsed alpha equals
`int(hex[6:8], 16) / 255`, except that an explicitly supplied (and
in-range) alpha argument is always stored instead. -/
theorem color_parse_properties :
    (∀ (c1 c2 c3 c4 c5 c6 : Char) (v1 v2 v3 v4 v5 v6 : Nat)
        (col : PyColor),
      charHexVal c1 = some v1 → charHexVal c2 = some v2 →
      charHexVal c3 = some v3 → charHexVal c4 = some v4 →
      charHexVal c5 = some v5 → charHexVal c6 = some v6 →
      mkColor ['#', c1, c2, c3, c4, c5, c6] none = .ok col →
      toHex col false = ['#', c1, c2, c3, c4, c5, c6].map pyUpperChar
        ∧ col.alpha = 1)
    ∧ (∀ (c1 c2 c3 c4 c5 c6 c7 c8 : Char) (v1 v2 v3 v4 v5 v6 v7 v8 : Nat)
        (col : PyColor),
      charHexVal c1 = some v1 → charHexVal c2 = some v2 →
      charHexVal c3 = some v3 → charHexVal c4 = some v4 →
      charHexVal c5 = some v5 → charHexVal c6 = some v6 →
      charHexVal c7 = some v7 → charHexVal c8 = some v8 →
      mkColor ['#', c1, c2, c3, c4, c5, c6, c7, c8] none = .ok col →
      col.alpha = ((16 * v7 + v8 : ℕ) : ℚ) / 255)
    ∧ (∀ (hexColor : List Char) (a : ℚ) (col : PyColor),
      mkColor hexColor (some a) = .ok col → col.alpha = a) := by
  refine ⟨?_, ?_, mkColor_alpha_override⟩
  · intro c1 c2 c3 c4 c5 c6 v1 v2 v3 v4 v5 v6 col h1 h2 h3 h4 h5 h6 hok
    rw [mkColor_hash_six c1 c2 c3 c4 c5 c6 v1 v2 v3 v4 v5 v6
      h1 h2 h3 h4 h5 h6 none, if_pos (by norm_num)] at hok
    injection hok with hok
    subst hok
    refine ⟨?_, rfl⟩
    show '#' :: (hexByte (16 * v1 + v2) ++ hexByte (16 * v3 + v4)
        ++ hexByte (16 * v5 + v6)) = _
    rw [hexByte_pair v1 v2 (charHexVal_cases c1 v1 h1).1
        (charHexVal_cases c2 v2 h2).1,
      hexByte_pair v3 v4 (charHexVal_cases c3 v3 h3).1
        (charHexVal_cases c4 v4 h4).1,
      hexByte_pair v5 v6 (charHexVal_cases c5 v5 h5).1
        (charHexVal_cases c6 v6 h6).1,
      (charHexVal_cases c1 v1 h1).2.2.1, (charHexVal_cases c2 v2 h2).2.2.1,
      (charHexVal_cases c3 v3 h3).2.2.1, (charHexVal_cases c4 v4 h4).2.2.1,
      (charHexVal_cases c5 v5 h5).2.2.1, (charHexVal_cases c6 v6 h6).2.2.1]
    simp [pyUpperChar]
  · intro c1 c2 c3 c4 c5 c6 c7 c8 v1 v2 v3 v4 v5 v6 v7 v8 col
      h1 h2 h3 h4 h5 h6 h7 h8 hok
    have hv7 := (charHexVal_cases c7 v7 h7).1
    have hv8 := (charHexVal_cases c8 v8 h8).1
    have hA : (0 : ℚ) ≤ ((16 * v7 + v8 : ℕ) : ℚ) / 255
        ∧ ((16 * v7 + v8 : ℕ) : ℚ) / 255 ≤ 1 := by
      constructor
      · positivity
      · rw [div_le_one (by norm_num)]
        have hb : (16 * v7 + v8 : ℕ) ≤ 255 := by omega
        exact_mod_cast hb
    rw [mkColor_hash_eight c1 c2 c3 c4 c5 c6 c7 c8 v1 v2 v3 v4 v5 v6 v7 v8
      h1 h2 h3 h4 h5 h6 h7 h8 none, if_pos (by simpa using hA)] at hok
    injection hok with hok
    subst hok
    rfl

/-- C7 (witness): the amended round-trip at `"#ff0000"`: `to_hex(False)`
yields `"#FF0000"` and the alpha is 1. -/
theorem color_parse_properties_concrete :
    toHex ⟨"#FF0000".data, (255, 0, 0), 1⟩ false = "#FF0000".data
    ∧ (⟨"#FF0000".data, (255, 0, 0), (1 : ℚ)⟩ : PyColor).alpha = 1 := by
  have h := (color_parse_properties).1 'f' 'f' '0' '0' '0' '0' 15 15 0 0 0 0
    ⟨"#FF0000".data, (255, 0, 0), 1⟩ (by decide) (by decide) (by decide)
    (by decide) (by decide) (by decide) (by decide)
  constructor
  · rw [h.1]
    decide
  · exact h.2

/-- C7 (counterexample): `"ff0000"` is a valid 6-hex-digit color string
(accepted without the leading `#`), but parse followed by
`to_hex(False)` returns `"#FF0000"`, not the uppercased input
`"FF0000"` — `to_hex` always prepends `#`. -/
theorem color_roundtrip_counterexample :
    mkColor ("ff0000".data) none
        = Except.ok ⟨"FF0000".data, (255, 0, 0), 1⟩
    ∧ toHex ⟨"FF0000".data, (255, 0, 0), 1⟩ false
        ≠ ("ff0000".data).map pyUpperChar := by
  constructor
  · decide
  · decide

/-- C10: for every valid 6- or 8-hex-digit color, construction accepts
the digits both with and without the leading `#` (given an in-range or
absent explicit alpha), and both spellings yield the same `rgb` and
`alpha` values. -/
theorem color_hash_optional :
    ∀ (cs : List Char) (a : Option ℚ),
      (cs.length = 6 ∨ cs.length = 8) →
      (∀ c ∈ cs, (charHexVal c).isSome = true) →
      (∀ x ∈ a, 0 ≤ x ∧ x ≤ 1) →
      ∃ col col', mkColor ('#' :: cs) a = .ok col
        ∧ mkColor cs a = .ok col'
        ∧ col.rgb = col'.rgb ∧ col.alpha = col'.alpha := by
  intro cs a hlen hv ha
  rcases hlen with h6 | h8
  · obtain ⟨c1, c2, c3, c4, c5, c6, rfl⟩ :
        ∃ a1 a2 a3 a4 a5 a6, cs = [a1, a2, a3, a4, a5, a6] := by
      match cs, h6 with
      | [a1, a2, a3, a4, a5, a6], _ => exact ⟨_, _, _, _, _, _, rfl⟩
    obtain ⟨v1, hv1⟩ := Option.isSome_iff_exists.mp (hv c1 (by simp))
    obtain ⟨v2, hv2⟩ := Option.isSome_iff_exists.mp (hv c2 (by simp))
    obtain ⟨v3, hv3⟩ := Option.isSome_iff_exists.mp (hv c3 (by simp))
    obtain ⟨v4, hv4⟩ := Option.isSome_iff_exists.mp (hv c4 (by simp))
    obtain ⟨v5, hv5⟩ := Option.isSome_iff_exists.mp (hv c5 (by simp))
    obtain ⟨v6, hv6⟩ := Option.isSome_iff_exists.mp (hv c6 (by simp))
    have hA : (0 : ℚ) ≤ a.getD 1 ∧ a.getD 1 ≤ 1 := by
      cases a with
      | none => norm_num
      | some x => simpa using ha x rfl
    rw [show ('#' :: [c1, c2, c3, c4, c5, c6])
        = ['#', c1, c2, c3, c4, c5, c6] from rfl,
      mkColor_hash_six c1 c2 c3 c4 c5 c6 v1 v2 v3 v4 v5 v6
        hv1 hv2 hv3 hv4 hv5 hv6 a,
      mkColor_plain_six c1 c2 c3 c4 c5 c6 v1 v2 v3 v4 v5 v6
        hv1 hv2 hv3 hv4 hv5 hv6 a,
      if_pos hA, if_pos hA]
    exact ⟨_, _, rfl, rfl, rfl, rfl⟩
  · obtain ⟨c1, c2, c3, c4, c5, c6, c7, c8, rfl⟩ :
        ∃ a1 a2 a3 a4 a5 a6 a7 a8,
          cs = [a1, a2, a3, a4, a5, a6, a7, a8] := by
      match cs, h8 with
      | [a1, a2, a3, a4, a5, a6, a7, a8], _ =>
        exact ⟨_, _, _, _, _, _, _, _, rfl⟩
    obtain ⟨v1, hv1⟩ := Option.isSome_iff_exists.mp (hv c1 (by simp))
    obtain ⟨v2, hv2⟩ := Option.isSome_iff_exists.mp (hv c2 (by simp))
    obtain ⟨v3, hv3⟩ := Option.isSome_iff_exists.mp (hv c3 (by simp))
    obtain ⟨v4, hv4⟩ := Option.isSome_iff_exists.mp (hv c4 (by simp))
    obtain ⟨v5, hv5⟩ := Option.isSome_iff_exists.mp (hv c5 (by simp))
    obtain ⟨v6, hv6⟩ := Option.isSome_iff_exists.mp (hv c6 (by simp))
    obtain ⟨v7, hv7⟩ := Option.isSome_iff_exists.mp (hv c7 (by simp))
    obtain ⟨v8, hv8⟩ := Option.isSome_iff_exists.mp (hv c8 (by simp))
    have hb7 := (charHexVal_cases c7 v7 hv7).1
    have hb8 := (charHexVal_cases c8 v8 hv8).1
    have hA : (0 : ℚ) ≤ a.getD (((16 * v7 + v8 : ℕ) : ℚ) / 255)
        ∧ a.getD (((16 * v7 + v8 : ℕ) : ℚ) / 255) ≤ 1 := by
      cases a with
      | none =>
        simp only [Option.getD_none]
        constructor
        · positivity
        · rw [div_le_one (by norm_num)]
          have hb : (16 * v7 + v8 : ℕ) ≤ 255 := by omega
          exact_mod_cast hb
      | some x => simpa using ha x rfl
    rw [show ('#' :: [c1, c2, c3, c4, c5, c6, c7, c8])
        = ['#', c1, c2, c3, c4, c5, c6, c7, c8] from rfl,
      mkColor_hash_eight c1 c2 c3 c4 c5 c6 c7 c8 v1 v2 v3 v4 v5 v6 v7 v8
        hv1 hv2 hv3 hv4 hv5 hv6 hv7 hv8 a,
      mkColor_plain_eight c1 c2 c3 c4 c5 c6 c7 c8 v1 v2 v3 v4 v5 v6 v7 v8
        hv1 hv2 hv3 hv4 hv5 hv6 hv7 hv8 a,
      if_pos hA, if_pos hA]
    exact ⟨_, _, rfl, rfl, rfl, rfl⟩

/-- C10 (witness): `"#aabbcc"` and `"aabbcc"` both construct and agree on
rgb and alpha. -/
theorem color_hash_optional_concrete :
    ∃ col col', mkColor ('#' :: "aabbcc".data) none = .ok col
      ∧ mkColor ("aabbcc".data) none = .ok col'
      ∧ col.rgb = col'.rgb ∧ col.alpha = col'.alpha :=
  color_hash_optional ("aabbcc".data) none (Or.inl (by decide)) (by decide)
    (by simp)

end OdDraw
